import Mathlib

/-!
Verification of the speech-to-text backend pipeline
(`speech_to_text_backend.py`): a Flask HTTP boundary (`/audio`, `/mode`,
`/transcription`) feeding a FIFO chunk queue consumed by a background
speech-recognition worker.

The embedding models the shared state (`web_online_mode`,
`audio_chunk_queue`, `latest_transcription_result`) and the operations
that mutate it: the three request handlers and the worker loop.  External
effects (base64 decoding, pydub raw-PCM decoding, the Google recognizer)
are oracles supplied as function parameters.

Two interleaving granularities are modelled.  The coarse semantics
(`step`, `Reachable`) serializes whole operations: each handler call and
each worker iteration runs to completion before the next begins.  The
fine-grained semantics (`fineStep`, `fineRun`) follows the source's
actual lock placement: `web_online_mode` is read at line 97 and line 163
and written at line 135 with no lock held, no lock is held across the
decode/recognition (lines 166-184), and `set_mode`'s flag write, queue
clear and slot reset are three separate lock regions — so a mode change
can interleave between an operation's unlocked online check and its
later locked mutation.
-/

namespace SpeechBackend

/-- JSON values as the Flask handlers receive them from `request.json`.
Numbers are modelled as integers, which suffices for the truthiness
distinctions the handlers make. -/
inductive Json where
  | null
  | bool (b : Bool)
  | num (n : Int)
  | str (s : String)
  | arr (elems : List Json)
  | obj (fields : List (String × Json))

/-- Python `bool(...)` coercion of a JSON value, as applied to
`data['online_mode']` at line 135 of the source: `None`, `False`, `0`,
`""`, `[]`, `{}` are falsy, everything else truthy. -/
def pytruthy : Json → Bool
  | .null => false
  | .bool b => b
  | .num n => decide (n ≠ 0)
  | .str s => decide (s ≠ "")
  | .arr [] => false
  | .arr (_ :: _) => true
  | .obj [] => false
  | .obj (_ :: _) => true

/-- Key lookup in a JSON object (`data[key]` after a `key in data` check). -/
def lookupField : List (String × Json) → String → Option Json
  | [], _ => none
  | (k, v) :: rest, key => if k = key then some v else lookupField rest key

/-- A raw audio chunk: the byte string produced by `base64.b64decode` and
appended to `audio_chunk_queue` (line 111). -/
abbrev Chunk := List Nat

/-- Normalized audio: the in-memory WAV produced by
`AudioSegment.from_raw` + `export` (lines 166-179). -/
abbrev Wav := List Nat

/-- The `latest_transcription_result` dict: `{"status": ..., "text": ...}`
(line 63). The source only ever stores the status strings `"idle"` and
`"success"`. -/
structure TResult where
  status : String
  text : String
deriving DecidableEq, Repr

/-- The reset value `{"status": "idle", "text": ""}` (lines 63, 125, 143). -/
def idleResult : TResult := ⟨"idle", ""⟩

/-- The shared mutable state of the backend: the `web_online_mode` flag
(line 55), the `audio_chunk_queue` list (line 58) and the
`latest_transcription_result` slot (line 63). -/
structure BackendState where
  web_online_mode : Bool
  audio_chunk_queue : List Chunk
  latest_transcription_result : TResult
deriving DecidableEq, Repr

/-- Process start state: offline, empty queue, idle result. -/
def initState : BackendState := ⟨false, [], idleResult⟩

/-- Outcome of `recognizer.recognize_google` on a WAV (lines 181-195):
either recognized text, or one of the exceptions caught by the inner
`try` of the worker (`sr.UnknownValueError`, `sr.RequestError`,
`CouldntDecodeError`, any other `Exception`). -/
inductive RecognizeOutcome where
  | ok (text : String)
  | unknownValue
  | requestError
  | couldntDecode
  | otherError
deriving DecidableEq, Repr

/-- Oracles for the external effects the handlers and the worker invoke:
`base64.b64decode` (returns `none` when the call raises),
`AudioSegment.from_raw` + WAV export (returns `none` when decoding the raw
PCM buffer raises), and `recognize_google`. -/
structure Env where
  b64decode : Json → Option Chunk
  from_raw : Chunk → Option Wav
  recognize_google : Wav → RecognizeOutcome

/-- HTTP response of `POST /audio`: status code plus the `status` field of
the JSON body. -/
structure AudioResponse where
  code : Nat
  status : String
deriving DecidableEq, Repr

/-- Result of one call to the `/audio` handler: the response, whether
`audio_chunk_queue_cv.notify()` was called (line 112), and the state after
the call. -/
structure AudioResult where
  response : AudioResponse
  notified : Bool
  state : BackendState

/-- The `POST /audio` handler `receive_audio` (lines 94-117): reject with
400 when offline, when the body is missing/falsy or lacks `audio_chunk`,
or when base64 decoding raises; otherwise append the decoded bytes to the
queue, notify the worker and return 200 success.  The body is modelled as
an optional JSON object (`request.json` is indexed as a dict). -/
def receive_audio (env : Env) (s : BackendState)
    (data : Option (List (String × Json))) : AudioResult :=
  if s.web_online_mode = false then
    ⟨⟨400, "error"⟩, false, s⟩
  else
    match data with
    | none => ⟨⟨400, "error"⟩, false, s⟩
    | some [] => ⟨⟨400, "error"⟩, false, s⟩
    | some d =>
        match lookupField d "audio_chunk" with
        | none => ⟨⟨400, "error"⟩, false, s⟩
        | some v =>
          match env.b64decode v with
          | none => ⟨⟨400, "error"⟩, false, s⟩
          | some audio_data =>
            ⟨⟨200, "success"⟩, true,
             { s with audio_chunk_queue := s.audio_chunk_queue ++ [audio_data] }⟩

/-- The `GET /transcription` handler `get_transcription` (lines 119-126):
under `latest_transcription_lock`, return the current slot value and reset
the slot to idle. -/
def get_transcription (s : BackendState) : TResult × BackendState :=
  (s.latest_transcription_result,
   { s with latest_transcription_result := idleResult })

/-- Result of one call to the `/mode` handler: status code, `status` body
field, the echoed `online_mode` value on success, whether the queue
condition was notified, and the state after the call. -/
structure ModeResult where
  code : Nat
  status : String
  online_mode : Option Bool
  notified : Bool
  state : BackendState

/-- The `POST /mode` handler `set_mode` (lines 128-145): reject with 400
when the body is missing/falsy or lacks `online_mode`; otherwise store
`bool(data['online_mode'])` in `web_online_mode` and, when the stored
value is false, clear `audio_chunk_queue` (under its lock, with no
`notify`) and reset `latest_transcription_result` to idle.  The response
echoes the coerced value. -/
def set_mode (s : BackendState)
    (data : Option (List (String × Json))) : ModeResult :=
  match data with
  | none => ⟨400, "error", none, false, s⟩
  | some [] => ⟨400, "error", none, false, s⟩
  | some d =>
      match lookupField d "online_mode" with
      | none => ⟨400, "error", none, false, s⟩
      | some v =>
        let m := pytruthy v
        if m = false then
          ⟨200, "success", some m, false,
           { s with web_online_mode := m, audio_chunk_queue := [],
                    latest_transcription_result := idleResult }⟩
        else
          ⟨200, "success", some m, false, { s with web_online_mode := m }⟩

/-- What one iteration of the worker loop body (lines 152-201) did.
`blockedInWait` is the `audio_chunk_queue_cv.wait()` suspension (line 158,
guarded by `while not audio_chunk_queue and web_online_mode`).  The four
handler events record which `except` clause of the inner `try`
(lines 181-195) ran; `outerExceptionLogged` is the outer `except` at
lines 199-201 (print + `time.sleep(1)`); `sleptFallback` is the `else`
branch `time.sleep(0.05)` at line 197. -/
inductive WorkerEvent where
  | blockedInWait
  | published (text : String)
  | ambiguousIgnored
  | serviceErrorLogged
  | innerCouldntDecodeLogged
  | innerGenericLogged
  | outerExceptionLogged
  | sleptFallback
deriving DecidableEq, Repr

/-- Whether the event's branch prints a failure message.  The
`sr.UnknownValueError` branch is `pass` with its print commented out
(lines 187-189); the `sr.RequestError`, `CouldntDecodeError`, inner
generic and outer handlers all print (lines 190-195, 199-200). -/
def printsFailureLog : WorkerEvent → Bool
  | .serviceErrorLogged => true
  | .innerCouldntDecodeLogged => true
  | .innerGenericLogged => true
  | .outerExceptionLogged => true
  | _ => false

/-- Processing of one dequeued chunk (lines 166-195).  The pydub decode
and WAV export (lines 166-179) run BEFORE the inner `try` that starts at
line 181, so a decode failure propagates to the outer `except Exception`
at line 199; only exceptions raised by the `recognize_google` call are
dispatched to the inner handlers. -/
def processChunk (env : Env) (c : Chunk) (slot : TResult) :
    WorkerEvent × TResult :=
  match env.from_raw c with
  | none => (.outerExceptionLogged, slot)
  | some wav =>
    match env.recognize_google wav with
    | .ok text => (.published text, ⟨"success", text⟩)
    | .unknownValue => (.ambiguousIgnored, slot)
    | .requestError => (.serviceErrorLogged, slot)
    | .couldntDecode => (.innerCouldntDecodeLogged, slot)
    | .otherError => (.innerGenericLogged, slot)

/-- One iteration of `speech_recognition_worker` (lines 152-201).  Under
the queue lock the worker waits while the queue is empty AND online is
true (line 157); it pops the head whenever the queue is non-empty
(lines 160-161).  It then processes the chunk only if the popped bytes are
truthy (non-empty) and online is still true (line 163); otherwise it
takes the `time.sleep(0.05)` branch (line 197), silently discarding any
popped chunk. -/
def speech_recognition_worker_step (env : Env) (s : BackendState) :
    WorkerEvent × BackendState :=
  if s.audio_chunk_queue = [] ∧ s.web_online_mode = true then
    (.blockedInWait, s)
  else
    match s.audio_chunk_queue with
    | [] => (.sleptFallback, s)
    | c :: rest =>
      if c ≠ [] ∧ s.web_online_mode = true then
        let r := processChunk env c s.latest_transcription_result
        (r.1, { s with audio_chunk_queue := rest,
                       latest_transcription_result := r.2 })
      else
        (.sleptFallback, { s with audio_chunk_queue := rest })

/-- The four atomic operations whose interleavings make up an execution:
a `POST /audio` submission, a `POST /mode` change, a `GET /transcription`
poll, and one worker iteration. -/
inductive Op where
  | submit (data : Option (List (String × Json)))
  | mode (data : Option (List (String × Json)))
  | poll
  | worker

/-- State transition of one atomic operation. -/
def step (env : Env) (s : BackendState) : Op → BackendState
  | .submit data => (receive_audio env s data).state
  | .mode data => (set_mode s data).state
  | .poll => (get_transcription s).2
  | .worker => (speech_recognition_worker_step env s).2

/-- States reachable from process start by sequences of the four
operations run to completion one at a time (serialized operations).
This is COARSER than the program's concurrency: the source reads
`web_online_mode` at lines 97 and 163 and writes it at line 135 without
a lock, and holds no lock across the decode/recognition, so a mode
change can overlap an in-flight submission or worker iteration.  Those
overlapping interleavings are modelled by `fineStep`/`fineRun` below;
`Reachable` covers exactly the executions in which no operation overlaps
another. -/
inductive Reachable (env : Env) : BackendState → Prop
  | init : Reachable env initState
  | step (s : BackendState) (op : Op) :
      Reachable env s → Reachable env (step env s op)

/-- The three mutations ever applied to `audio_chunk_queue` in the source:
`append` at line 111, `pop(0)` at line 161 (only when non-empty, line 160),
and `clear()` at line 141. -/
inductive QOp where
  | enq
  | deq
  | clear
deriving DecidableEq, Repr

/-- Ghost-instrumented queue: chunks are identified by the order of their
enqueue (`nextId` counts enqueues), `queue` holds the pending ids in queue
order, `deqs` records the ids handed to the worker in dequeue order. -/
structure QueueModel where
  nextId : Nat
  queue : List Nat
  deqs : List Nat
deriving DecidableEq, Repr

/-- Empty queue, nothing enqueued or dequeued yet. -/
def qInit : QueueModel := ⟨0, [], []⟩

/-- Effect of one queue mutation on the ghost model: `enq` appends the
next id (line 111), `deq` removes the head and records it (lines 160-161),
`clear` drops all pending ids (line 141). -/
def qStep (m : QueueModel) : QOp → QueueModel
  | .enq => { m with queue := m.queue ++ [m.nextId], nextId := m.nextId + 1 }
  | .deq =>
    match m.queue with
    | [] => m
    | x :: rest => { m with queue := rest, deqs := m.deqs ++ [x] }
  | .clear => { m with queue := [] }

/-- Run a sequence of queue mutations from the empty queue. -/
def qRun (ops : List QOp) : QueueModel := ops.foldl qStep qInit

/-- Queue-discipline invariant: dequeued ids followed by pending ids are
strictly increasing, and all are below the enqueue counter. -/
def QInv (m : QueueModel) : Prop :=
  List.Sorted (· < ·) (m.deqs ++ m.queue) ∧
  ∀ x ∈ m.deqs ++ m.queue, x < m.nextId

/-- The `audio_chunk` value extracted by `receive_audio`, `none` exactly
when the body is absent/falsy or the field is missing (lines 100-104). -/
def audioField : Option (List (String × Json)) → Option Json
  | none => none
  | some [] => none
  | some d => lookupField d "audio_chunk"

/-- The `online_mode` value extracted by `set_mode`, `none` exactly when
the body is absent/falsy or the field is missing (lines 131-135). -/
def modeField : Option (List (String × Json)) → Option Json
  | none => none
  | some [] => none
  | some d => lookupField d "online_mode"

/-- The invariant of the offline state: when `web_online_mode` is false,
the queue is empty and the result slot is idle. -/
def OfflineClean (s : BackendState) : Prop :=
  s.web_online_mode = false →
    s.audio_chunk_queue = [] ∧ s.latest_transcription_result = idleResult

/-- Sample oracle: base64 decodes any string field to the byte chunk
`[7]`, raw-PCM decoding succeeds returning the chunk itself, recognition
hears "hello". -/
def envHello : Env :=
  ⟨fun v => match v with | .str _ => some [7] | _ => none,
   fun c => some c,
   fun _ => .ok "hello"⟩

/-- Sample oracle: every external call fails or raises. -/
def envFail : Env :=
  ⟨fun _ => none, fun _ => none, fun _ => .unknownValue⟩

/-- Sample oracle for the decode-failure scenario: pydub raises on the
chunk `[1]` and decodes any other chunk to itself; recognition hears
"hello". -/
def envBadChunk1 : Env :=
  ⟨fun _ => some [1],
   fun c => if c = [1] then none else some c,
   fun _ => .ok "hello"⟩

/-- Sample oracle for the recognition-failure scenarios: decoding
succeeds, recognition raises `UnknownValueError` on the WAV `[1]` and
`RequestError` on any other WAV. -/
def envAmbig : Env :=
  ⟨fun _ => none,
   fun c => some c,
   fun w => if w = [1] then .unknownValue else .requestError⟩

/-- Program counter of one in-flight `POST /audio` request context.  The
handler reads `web_online_mode` at line 97 and validates/base64-decodes
the body (lines 100-107) with NO lock held; only the append+notify block
(lines 110-112) takes the queue lock.  `readyAppend c` is a request that
passed the unlocked checks, holding the decoded bytes `c` and about to
enter the locked append. -/
inductive ProducerPC where
  | idle
  | readyAppend (audio_data : Chunk)

/-- Program counter of the worker thread between its lock regions: the
locked wait+pop (lines 155-161), then the unlocked mode check at line
163 followed by decode and recognition with no lock held (lines
166-184), then the locked slot write (lines 185-186).  `havePopped co`
holds the chunk taken by `pop(0)` (`none` when the queue was empty);
`willPublish t` is a recognition that returned `t` after passing the
line-163 check, about to take the result lock. -/
inductive WorkerPC where
  | atLoop
  | havePopped (co : Option Chunk)
  | willPublish (text : String)

/-- Program counter of one in-flight `POST /mode` request context: the
unlocked flag write at line 135, then — for a falsy value — the locked
queue clear (lines 140-141) and the locked slot reset (lines 142-143),
three separate lock regions. -/
inductive ModePC where
  | idle
  | toClear
  | toReset

/-- Fine-grained pipeline state: the shared variables plus the program
counters of one submission context, the worker thread, and one
mode-change context. -/
structure FineState where
  shared : BackendState
  producer : ProducerPC
  worker : WorkerPC
  modeCtl : ModePC

/-- Process start: shared state initial, every context at rest. -/
def fineInit : FineState := ⟨initState, .idle, .atLoop, .idle⟩

/-- The atomic sub-steps of the operations at the source's lock
granularity: a submission's unlocked check+decode and its locked append;
a mode change's unlocked flag write, locked clear, and locked reset; the
(fully locked) poll; the worker's locked pop, its unlocked
check+decode+recognize, and its locked slot write. -/
inductive FineOp where
  | submit_check (data : Option (List (String × Json)))
  | submit_append
  | mode_write (data : Option (List (String × Json)))
  | mode_clear
  | mode_reset
  | poll
  | worker_pop
  | worker_process
  | worker_publish

/-- One atomic sub-step of the fine-grained semantics.  A sub-step whose
context is not at the matching program point, or whose guard blocks (the
worker's condition wait at line 158), leaves the state unchanged.
`submit_check` is lines 97-107 (unlocked: reject when offline, body
invalid or base64 raises; otherwise hold the decoded bytes);
`submit_append` is lines 110-112 (locked, appends regardless of the
current mode); `mode_write` is lines 131-136 (unlocked flag write of the
coerced value); `mode_clear`/`mode_reset` are lines 140-141/142-143;
`poll` is lines 122-126 (one lock region); `worker_pop` is lines
155-161; `worker_process` is lines 163-184 (unlocked mode re-check, then
decode/recognition, retaining recognized text for publication);
`worker_publish` is lines 185-186 (locked slot write). -/
def fineStep (env : Env) (s : FineState) : FineOp → FineState
  | .submit_check data =>
    match s.producer with
    | .idle =>
      if s.shared.web_online_mode = true then
        match audioField data with
        | some v =>
          match env.b64decode v with
          | some c => { s with producer := .readyAppend c }
          | none => s
        | none => s
      else s
    | _ => s
  | .submit_append =>
    match s.producer with
    | .readyAppend c =>
      { s with
        shared := { s.shared with
          audio_chunk_queue := s.shared.audio_chunk_queue ++ [c] },
        producer := .idle }
    | _ => s
  | .mode_write data =>
    match s.modeCtl with
    | .idle =>
      match modeField data with
      | some v =>
        { s with
          shared := { s.shared with web_online_mode := pytruthy v },
          modeCtl := if pytruthy v = false then .toClear else .idle }
      | none => s
    | _ => s
  | .mode_clear =>
    match s.modeCtl with
    | .toClear =>
      { s with shared := { s.shared with audio_chunk_queue := [] },
               modeCtl := .toReset }
    | _ => s
  | .mode_reset =>
    match s.modeCtl with
    | .toReset =>
      { s with
        shared := { s.shared with latest_transcription_result := idleResult },
        modeCtl := .idle }
    | _ => s
  | .poll =>
    { s with
      shared := { s.shared with latest_transcription_result := idleResult } }
  | .worker_pop =>
    match s.worker with
    | .atLoop =>
      match s.shared.audio_chunk_queue with
      | [] =>
        if s.shared.web_online_mode = true then s
        else { s with worker := .havePopped none }
      | c :: rest =>
        { s with shared := { s.shared with audio_chunk_queue := rest },
                 worker := .havePopped (some c) }
    | _ => s
  | .worker_process =>
    match s.worker with
    | .havePopped co =>
      match co with
      | some c =>
        if c ≠ [] ∧ s.shared.web_online_mode = true then
          match env.from_raw c with
          | some w =>
            match env.recognize_google w with
            | .ok t => { s with worker := .willPublish t }
            | _ => { s with worker := .atLoop }
          | none => { s with worker := .atLoop }
        else { s with worker := .atLoop }
      | none => { s with worker := .atLoop }
    | _ => s
  | .worker_publish =>
    match s.worker with
    | .willPublish t =>
      { s with
        shared := { s.shared with
          latest_transcription_result := ⟨"success", t⟩ },
        worker := .atLoop }
    | _ => s

/-- Run a fine-grained interleaving from process start. -/
def fineRun (env : Env) (ops : List FineOp) : FineState :=
  ops.foldl (fineStep env) fineInit

/-- The racing interleaving against the offline invariant: go online;
submit and process a chunk up to the point where recognition has
succeeded (past the unlocked line-163 mode check, result lock not yet
taken); let a second submission pass its unlocked line-97 mode check;
let a full offline transition (flag write, queue clear, slot reset) run
to completion; then let the in-flight recognition publish its success
and the in-flight submission append its chunk. -/
def c1RaceTrace : List FineOp :=
  [ .mode_write (some [("online_mode", Json.bool true)]),
    .submit_check (some [("audio_chunk", Json.str "eA==")]),
    .submit_append,
    .worker_pop,
    .worker_process,
    .submit_check (some [("audio_chunk", Json.str "eA==")]),
    .mode_write (some [("online_mode", Json.bool false)]),
    .mode_clear,
    .mode_reset,
    .worker_publish,
    .submit_append ]

/-- When offline, `receive_audio` returns early (line 97-98) and the state
is untouched. -/
theorem receive_audio_offline_state (env : Env) (s : BackendState)
    (data : Option (List (String × Json))) (h : s.web_online_mode = false) :
    (receive_audio env s data).state = s := by
  simp [receive_audio, h]

/-- `receive_audio` never writes `web_online_mode`. -/
theorem receive_audio_state_mode (env : Env) (s : BackendState)
    (data : Option (List (String × Json))) :
    (receive_audio env s data).state.web_online_mode = s.web_online_mode := by
  unfold receive_audio
  repeat' split
  all_goals rfl

/-- A worker iteration never writes `web_online_mode`. -/
theorem worker_state_mode (env : Env) (s : BackendState) :
    (speech_recognition_worker_step env s).2.web_online_mode =
      s.web_online_mode := by
  unfold speech_recognition_worker_step
  repeat' split
  all_goals rfl

/-- `receive_audio` preserves the offline-clean invariant. -/
theorem receive_audio_offlineClean (env : Env) (s : BackendState)
    (data : Option (List (String × Json))) (h : OfflineClean s) :
    OfflineClean (receive_audio env s data).state := by
  by_cases ho : s.web_online_mode = false
  · rw [receive_audio_offline_state env s data ho]; exact h
  · intro hoff
    rw [receive_audio_state_mode] at hoff
    exact absurd hoff ho

/-- `set_mode` preserves the offline-clean invariant: the 400 branches do
not touch the state, the offline branch clears queue and slot, and the
online branch leaves the flag true. -/
theorem set_mode_offlineClean (s : BackendState)
    (data : Option (List (String × Json))) (h : OfflineClean s) :
    OfflineClean (set_mode s data).state := by
  cases data with
  | none => exact h
  | some d =>
    cases d with
    | nil => exact h
    | cons kv rest =>
      cases hl : lookupField (kv :: rest) "online_mode" with
      | none => simpa [set_mode, hl] using h
      | some v =>
        by_cases hv : pytruthy v = false
        · intro _
          simp [set_mode, hl, hv]
        · intro hoff
          simp [set_mode, hl, hv] at hoff

/-- A poll preserves the offline-clean invariant: the slot is reset to
idle and nothing else changes. -/
theorem poll_offlineClean (s : BackendState) (h : OfflineClean s) :
    OfflineClean (get_transcription s).2 := by
  intro hoff
  exact ⟨(h hoff).1, rfl⟩

/-- A worker iteration preserves the offline-clean invariant: when
offline the queue is already empty, the wait guard is false and the
iteration is the no-op sleep branch. -/
theorem worker_offlineClean (env : Env) (s : BackendState)
    (h : OfflineClean s) : OfflineClean (speech_recognition_worker_step env s).2 := by
  by_cases ho : s.web_online_mode = false
  · obtain ⟨hq, hs⟩ := h ho
    intro _
    unfold speech_recognition_worker_step
    simp [hq, ho, hs]
  · intro hoff
    rw [worker_state_mode] at hoff
    exact absurd hoff ho

/-- Every atomic operation preserves the offline-clean invariant. -/
theorem step_offlineClean (env : Env) (s : BackendState) (op : Op)
    (h : OfflineClean s) : OfflineClean (step env s op) := by
  cases op with
  | submit data => exact receive_audio_offlineClean env s data h
  | mode data => exact set_mode_offlineClean s data h
  | poll => exact poll_offlineClean s h
  | worker => exact worker_offlineClean env s h

/-- Every reachable state is offline-clean. -/
theorem reachable_offlineClean (env : Env) (s : BackendState)
    (h : Reachable env s) : OfflineClean s := by
  induction h with
  | init => intro _; exact ⟨rfl, rfl⟩
  | step s' op _ ih => exact step_offlineClean env s' op ih

/-- C1 counterexample: an interleaving at the source's lock granularity
refutes the claimed invariant.  A recognition that passed the unlocked
line-163 mode check and a submission that passed the unlocked line-97
mode check are both in flight when a full offline transition (line-135
flag write, line-141 queue clear, line-143 slot reset) runs to
completion; the recognition then takes the result lock and writes its
success (lines 185-186) and the submission takes the queue lock and
appends (line 111).  The resulting state — with every context back at
rest — is offline with a `success` result in the slot and a non-empty
queue. -/
theorem c1_offline_invariant_race_cex :
    (fineRun envHello c1RaceTrace).shared.web_online_mode = false ∧
    (fineRun envHello c1RaceTrace).shared.latest_transcription_result =
      (⟨"success", "hello"⟩ : TResult) ∧
    (fineRun envHello c1RaceTrace).shared.audio_chunk_queue = [[7]] := by
  exact ⟨rfl, rfl, rfl⟩

/-- C1 amended: for interleavings of serialized operations — each
submission, mode change, poll and worker iteration running to completion
without overlapping another (in particular, no mode change interleaving
an operation's unlocked online check at line 97 or 163 and its later
locked mutation) — every reachable state satisfies: if online mode is
false then the chunk queue is empty and the latest-transcription slot is
idle, so a `success` status is never observable offline.  Under the
program's true lock granularity the guarantee is only best-effort, as
the counterexample above shows. -/
theorem c1_offline_queue_empty_slot_idle (env : Env) (s : BackendState)
    (h : Reachable env s) (hoff : s.web_online_mode = false) :
    s.audio_chunk_queue = [] ∧
    s.latest_transcription_result = idleResult ∧
    s.latest_transcription_result.status ≠ "success" := by
  obtain ⟨hq, hs⟩ := reachable_offlineClean env s h hoff
  refine ⟨hq, hs, ?_⟩
  rw [hs]
  decide

/-- C1 witness: go online, submit a chunk, go offline; the resulting
concrete state is offline with empty queue and idle slot. -/
theorem c1_offline_queue_empty_slot_idle_witness :
    (step envHello
      (step envHello
        (step envHello initState (Op.mode (some [("online_mode", Json.bool true)])))
        (Op.submit (some [("audio_chunk", Json.str "eA==")])))
      (Op.mode (some [("online_mode", Json.bool false)]))).audio_chunk_queue = [] ∧
    (step envHello
      (step envHello
        (step envHello initState (Op.mode (some [("online_mode", Json.bool true)])))
        (Op.submit (some [("audio_chunk", Json.str "eA==")])))
      (Op.mode (some [("online_mode", Json.bool false)]))).latest_transcription_result = idleResult ∧
    (step envHello
      (step envHello
        (step envHello initState (Op.mode (some [("online_mode", Json.bool true)])))
        (Op.submit (some [("audio_chunk", Json.str "eA==")])))
      (Op.mode (some [("online_mode", Json.bool false)]))).latest_transcription_result.status ≠ "success" :=
  c1_offline_queue_empty_slot_idle envHello _
    (Reachable.step _ _ (Reachable.step _ _ (Reachable.step _ _ Reachable.init)))
    rfl

/-- C3: a poll of GET /transcription is destructive: it returns the
current slot value and resets the slot to idle in the same operation, so
a second consecutive poll with no worker activity in between returns the
idle/empty value, and in particular never the same success event. -/
theorem c3_poll_destructive (s : BackendState) :
    (get_transcription s).1 = s.latest_transcription_result ∧
    (get_transcription s).2.latest_transcription_result = idleResult ∧
    (get_transcription (get_transcription s).2).1 = idleResult ∧
    (get_transcription (get_transcription s).2).1.status ≠ "success" := by
  refine ⟨rfl, rfl, rfl, ?_⟩
  show idleResult.status ≠ "success"
  decide

/-- C3 witness: polling a concrete success slot returns it and a second
poll returns idle/empty. -/
theorem c3_poll_destructive_witness :
    (get_transcription ⟨true, [], ⟨"success", "hi"⟩⟩).1 =
      (⟨"success", "hi"⟩ : TResult) ∧
    (get_transcription
      (get_transcription ⟨true, [], ⟨"success", "hi"⟩⟩).2).1 = idleResult := by
  have h := c3_poll_destructive ⟨true, [], ⟨"success", "hi"⟩⟩
  exact ⟨h.1, h.2.2.1⟩

/-- C4: POST /mode with a falsy `online_mode` value synchronously clears
the chunk queue and resets the result slot to idle before the call
returns, for every prior queue and slot content. -/
theorem c4_set_mode_offline_clears (s : BackendState)
    (data : Option (List (String × Json))) (v : Json)
    (hf : modeField data = some v) (hv : pytruthy v = false) :
    (set_mode s data).state.audio_chunk_queue = [] ∧
    (set_mode s data).state.latest_transcription_result = idleResult ∧
    (set_mode s data).state.web_online_mode = false ∧
    (set_mode s data).code = 200 := by
  cases data with
  | none => simp [modeField] at hf
  | some d =>
    cases d with
    | nil => simp [modeField] at hf
    | cons kv rest =>
      simp only [modeField] at hf
      simp [set_mode, hf, hv]

/-- C4 witness: switching offline from a concrete online state with a
non-empty queue and a stale success result leaves queue empty, slot idle,
mode false, response 200. -/
theorem c4_set_mode_offline_clears_witness :
    (set_mode ⟨true, [[1], [2]], ⟨"success", "hi"⟩⟩
      (some [("online_mode", Json.bool false)])).state.audio_chunk_queue = [] ∧
    (set_mode ⟨true, [[1], [2]], ⟨"success", "hi"⟩⟩
      (some [("online_mode", Json.bool false)])).state.latest_transcription_result = idleResult ∧
    (set_mode ⟨true, [[1], [2]], ⟨"success", "hi"⟩⟩
      (some [("online_mode", Json.bool false)])).state.web_online_mode = false ∧
    (set_mode ⟨true, [[1], [2]], ⟨"success", "hi"⟩⟩
      (some [("online_mode", Json.bool false)])).code = 200 :=
  c4_set_mode_offline_clears _ _ (Json.bool false) rfl rfl

/-- C10: POST /mode coerces the supplied `online_mode` value with Python
truthiness before storing and echoing it; truthy values (including the
non-empty string "false") set the mode online, falsy values (false, 0,
"", null) set it offline and trigger the offline clearing. -/
theorem c10_set_mode_truthiness (s : BackendState)
    (data : Option (List (String × Json))) (v : Json)
    (hf : modeField data = some v) :
    (set_mode s data).state.web_online_mode = pytruthy v ∧
    (set_mode s data).online_mode = some (pytruthy v) ∧
    (set_mode s data).code = 200 ∧
    (pytruthy v = false →
      (set_mode s data).state.audio_chunk_queue = [] ∧
      (set_mode s data).state.latest_transcription_result = idleResult) ∧
    pytruthy (Json.str "false") = true ∧
    pytruthy (Json.bool false) = false ∧
    pytruthy (Json.num 0) = false ∧
    pytruthy (Json.str "") = false ∧
    pytruthy Json.null = false := by
  have h4 : (set_mode s data).state.web_online_mode = pytruthy v ∧
      (set_mode s data).online_mode = some (pytruthy v) ∧
      (set_mode s data).code = 200 ∧
      (pytruthy v = false →
        (set_mode s data).state.audio_chunk_queue = [] ∧
        (set_mode s data).state.latest_transcription_result = idleResult) := by
    cases data with
    | none => simp [modeField] at hf
    | some d =>
      cases d with
      | nil => simp [modeField] at hf
      | cons kv rest =>
        simp only [modeField] at hf
        by_cases hv : pytruthy v = false
        · simp [set_mode, hf, hv]
        · simp [set_mode, hf, hv]
  exact ⟨h4.1, h4.2.1, h4.2.2.1, h4.2.2.2,
    by decide, by decide, by decide, by decide, by decide⟩

/-- C10 witness: the non-empty string "false" is truthy, so it switches
the mode to online and is echoed as true. -/
theorem c10_set_mode_truthiness_witness :
    (set_mode initState (some [("online_mode", Json.str "false")])).state.web_online_mode = true ∧
    (set_mode initState (some [("online_mode", Json.str "false")])).online_mode = some true :=
  have h := c10_set_mode_truthiness initState
    (some [("online_mode", Json.str "false")]) (Json.str "false") rfl
  ⟨h.1.trans (by decide), h.2.1.trans (by decide)⟩

/-- C9: POST /audio returns 400 and leaves the queue unchanged exactly
when the mode is offline, the `audio_chunk` field is missing, or the
base64 body fails to decode; otherwise it appends the decoded bytes to
the queue and returns 200 with status success. -/
theorem c9_receive_audio_reject_iff (env : Env) (s : BackendState)
    (data : Option (List (String × Json))) :
    (((receive_audio env s data).response.code = 400 ∧
        (receive_audio env s data).state = s) ↔
      (s.web_online_mode = false ∨ audioField data = none ∨
        ∃ v, audioField data = some v ∧ env.b64decode v = none)) ∧
    (∀ v c, s.web_online_mode = true → audioField data = some v →
      env.b64decode v = some c →
      (receive_audio env s data).response = ⟨200, "success"⟩ ∧
      (receive_audio env s data).state.audio_chunk_queue =
        s.audio_chunk_queue ++ [c]) := by
  by_cases ho : s.web_online_mode = false
  · constructor
    · simp [receive_audio, ho]
    · intro v c hon _ _
      rw [ho] at hon
      cases hon
  · have ho' : s.web_online_mode = true := by
      cases hb : s.web_online_mode
      · exact absurd hb ho
      · rfl
    cases data with
    | none =>
      constructor
      · simp [receive_audio, ho', audioField]
      · intro v c _ hf _
        simp [audioField] at hf
    | some d =>
      cases d with
      | nil =>
        constructor
        · simp [receive_audio, ho', audioField]
        · intro v c _ hf _
          simp [audioField] at hf
      | cons kv rest =>
        cases hl : lookupField (kv :: rest) "audio_chunk" with
        | none =>
          constructor
          · simp [receive_audio, ho', audioField, hl]
          · intro v c _ hf _
            simp [audioField, hl] at hf
        | some v =>
          cases hd : env.b64decode v with
          | none =>
            constructor
            · constructor
              · intro _
                exact Or.inr (Or.inr ⟨v, by simp [audioField, hl], hd⟩)
              · intro _
                simp [receive_audio, ho', hl, hd]
            · intro v' c _ hf hdec
              simp [audioField, hl] at hf
              subst hf
              rw [hd] at hdec
              cases hdec
          | some c0 =>
            constructor
            · constructor
              · intro hl400
                have := hl400.1
                simp [receive_audio, ho', hl, hd] at this
              · intro hrhs
                rcases hrhs with h1 | h2 | ⟨v', hf, hdec⟩
                · exact absurd h1 ho
                · simp [audioField, hl] at h2
                · simp [audioField, hl] at hf
                  subst hf
                  rw [hd] at hdec
                  cases hdec
            · intro v' c' _ hf hdec
              simp [audioField, hl] at hf
              subst hf
              rw [hd] at hdec
              injection hdec with hc
              subst hc
              simp [receive_audio, ho', hl, hd]

/-- C9 witness: offline submission is rejected with the state unchanged,
and the same request succeeds online, appending the decoded chunk. -/
theorem c9_receive_audio_reject_iff_witness :
    ((receive_audio envHello initState
        (some [("audio_chunk", Json.str "eA==")])).response.code = 400 ∧
      (receive_audio envHello initState
        (some [("audio_chunk", Json.str "eA==")])).state = initState) ∧
    (receive_audio envHello ⟨true, [], idleResult⟩
        (some [("audio_chunk", Json.str "eA==")])).response = ⟨200, "success"⟩ ∧
    (receive_audio envHello ⟨true, [], idleResult⟩
        (some [("audio_chunk", Json.str "eA==")])).state.audio_chunk_queue = [[7]] := by
  constructor
  · exact (c9_receive_audio_reject_iff envHello initState
      (some [("audio_chunk", Json.str "eA==")])).1.mpr (Or.inl rfl)
  · exact (c9_receive_audio_reject_iff envHello ⟨true, [], idleResult⟩
      (some [("audio_chunk", Json.str "eA==")])).2 (Json.str "eA==") [7] rfl rfl rfl

/-- Each queue mutation preserves the queue-discipline invariant. -/
theorem qStep_inv (m : QueueModel) (op : QOp) (h : QInv m) :
    QInv (qStep m op) := by
  obtain ⟨hs, hb⟩ := h
  cases op with
  | enq =>
    simp only [qStep]
    constructor
    · rw [← List.append_assoc]
      rw [List.Sorted, List.pairwise_append]
      refine ⟨hs, List.pairwise_singleton _ _, ?_⟩
      intro x hx y hy
      rw [List.mem_singleton] at hy
      subst hy
      exact hb x hx
    · intro x hx
      rw [← List.append_assoc, List.mem_append] at hx
      cases hx with
      | inl h1 => exact Nat.lt_succ_of_lt (hb x h1)
      | inr h2 =>
        rw [List.mem_singleton] at h2
        subst h2
        exact Nat.lt_succ_self _
  | deq =>
    cases hq : m.queue with
    | nil =>
      simp only [qStep, hq]
      exact ⟨hs, hb⟩
    | cons x rest =>
      simp only [qStep, hq]
      constructor
      · rw [List.append_assoc]
        simpa [hq] using hs
      · intro y hy
        apply hb
        rw [hq]
        rw [List.append_assoc] at hy
        simpa using hy
  | clear =>
    simp only [qStep]
    constructor
    · simp only [List.append_nil]
      exact List.Pairwise.sublist (List.sublist_append_left _ _) hs
    · intro x hx
      simp only [List.append_nil] at hx
      exact hb x (List.mem_append_left _ hx)

/-- The queue-discipline invariant holds along any run. -/
theorem qRun_inv_aux (ops : List QOp) (m : QueueModel) (h : QInv m) :
    QInv (ops.foldl qStep m) := by
  induction ops generalizing m with
  | nil => exact h
  | cons op rest ih => exact ih (qStep m op) (qStep_inv m op h)

/-- The queue-discipline invariant holds after any run from the empty
queue. -/
theorem qRun_inv (ops : List QOp) : QInv (qRun ops) :=
  qRun_inv_aux ops qInit ⟨by simp [qInit], by intro x hx; simp [qInit] at hx⟩

/-- Without a `clear`, the dequeued ids followed by the pending ids are
exactly the full enqueue sequence `0, 1, ..., nextId - 1`. -/
theorem qRun_account_aux (ops : List QOp) (m : QueueModel)
    (hnc : QOp.clear ∉ ops)
    (h : m.deqs ++ m.queue = List.range m.nextId) :
    (ops.foldl qStep m).deqs ++ (ops.foldl qStep m).queue =
      List.range (ops.foldl qStep m).nextId := by
  induction ops generalizing m with
  | nil => exact h
  | cons op rest ih =>
    have hnc' : QOp.clear ∉ rest := fun hmem => hnc (List.mem_cons_of_mem _ hmem)
    have hop : op ≠ QOp.clear := fun he => hnc (he ▸ List.mem_cons_self _ _)
    apply ih _ hnc'
    cases op with
    | enq =>
      simp only [qStep]
      rw [← List.append_assoc, h, List.range_succ]
    | deq =>
      cases hq : m.queue with
      | nil => simpa [qStep, hq] using h
      | cons x rest2 =>
        simp only [qStep, hq]
        rw [List.append_assoc]
        simpa [hq] using h
    | clear => exact absurd rfl hop

/-- C2: the worker dequeues chunks in exactly the order they were
enqueued: identifying chunks by their enqueue rank, the dequeue sequence
is strictly increasing (enqueue order preserved) and duplicate-free (no
chunk dequeued twice), and with no offline clear the dequeued ids
followed by the pending ids are precisely the full enqueue sequence, so
the dequeue sequence is a prefix of the enqueue sequence. -/
theorem c2_fifo_dequeue_order (ops : List QOp) :
    List.Sorted (· < ·) (qRun ops).deqs ∧
    (qRun ops).deqs.Nodup ∧
    (QOp.clear ∉ ops →
      (qRun ops).deqs ++ (qRun ops).queue = List.range (qRun ops).nextId) := by
  obtain ⟨hs, hb⟩ := qRun_inv ops
  have hsd : List.Sorted (· < ·) (qRun ops).deqs :=
    List.Pairwise.sublist (List.sublist_append_left _ _) hs
  refine ⟨hsd, hsd.nodup, ?_⟩
  intro hnc
  exact qRun_account_aux ops qInit hnc rfl

/-- C2 witness: two enqueues followed by two dequeues hand out ids 0 then
1, in enqueue order and without repetition. -/
theorem c2_fifo_dequeue_order_witness :
    List.Sorted (· < ·) (qRun [QOp.enq, QOp.enq, QOp.deq, QOp.deq]).deqs ∧
    (qRun [QOp.enq, QOp.enq, QOp.deq, QOp.deq]).deqs.Nodup ∧
    (qRun [QOp.enq, QOp.enq, QOp.deq, QOp.deq]).deqs ++
        (qRun [QOp.enq, QOp.enq, QOp.deq, QOp.deq]).queue =
      List.range (qRun [QOp.enq, QOp.enq, QOp.deq, QOp.deq]).nextId := by
  have h := c2_fifo_dequeue_order [QOp.enq, QOp.enq, QOp.deq, QOp.deq]
  exact ⟨h.1, h.2.1, h.2.2 (by decide)⟩

/-- C5 counterexample: for a concrete online state whose head chunk fails
the pydub decode, the worker iteration is caught by the outer generic
handler (logged, one-second backoff), not by the dedicated
`CouldntDecodeError` handler: the decode runs before the inner `try`, so
the failure escalates to the outer loop level. -/
theorem c5_decode_failure_outer_handler_cex :
    (speech_recognition_worker_step envBadChunk1 ⟨true, [[1]], idleResult⟩).1 =
      WorkerEvent.outerExceptionLogged ∧
    (speech_recognition_worker_step envBadChunk1 ⟨true, [[1]], idleResult⟩).1 ≠
      WorkerEvent.innerCouldntDecodeLogged := by
  exact ⟨rfl, by decide⟩

/-- C5 amended: for every dequeued chunk whose raw-PCM decode fails, the
failure is caught and logged at the outer loop level (the generic handler
with a backoff sleep, since the decode runs outside the try block holding
the CouldntDecodeError handler), the chunk is dropped with the result
slot unchanged, and the worker proceeds: well-formed chunks enqueued
after the malformed one are still processed and published. -/
theorem c5_decode_failure_dropped (env : Env) (s : BackendState)
    (c : Chunk) (rest : List Chunk)
    (hq : s.audio_chunk_queue = c :: rest) (hon : s.web_online_mode = true)
    (hc : c ≠ []) (hdec : env.from_raw c = none) :
    (speech_recognition_worker_step env s).1 = WorkerEvent.outerExceptionLogged ∧
    printsFailureLog WorkerEvent.outerExceptionLogged = true ∧
    (speech_recognition_worker_step env s).2.latest_transcription_result =
      s.latest_transcription_result ∧
    (speech_recognition_worker_step env s).2.audio_chunk_queue = rest ∧
    (speech_recognition_worker_step env s).2.web_online_mode = true ∧
    (∀ (c2 : Chunk) (rest2 : List Chunk) (w : Wav) (t : String),
      rest = c2 :: rest2 → c2 ≠ [] → env.from_raw c2 = some w →
      env.recognize_google w = RecognizeOutcome.ok t →
      (speech_recognition_worker_step env
        (speech_recognition_worker_step env s).2).1 = WorkerEvent.published t ∧
      (speech_recognition_worker_step env
        (speech_recognition_worker_step env s).2).2.latest_transcription_result =
        ⟨"success", t⟩) := by
  refine ⟨?_, rfl, ?_, ?_, ?_, ?_⟩
  · simp [speech_recognition_worker_step, processChunk, hq, hon, hc, hdec]
  · simp [speech_recognition_worker_step, processChunk, hq, hon, hc, hdec]
  · simp [speech_recognition_worker_step, processChunk, hq, hon, hc, hdec]
  · simp [speech_recognition_worker_step, hq, hon, hc, hdec]
  · intro c2 rest2 w t h2 hc2 hw ht
    subst h2
    constructor
    · simp [speech_recognition_worker_step, processChunk, hq, hon, hc, hdec, hc2, hw, ht]
    · simp [speech_recognition_worker_step, processChunk, hq, hon, hc, hdec, hc2, hw, ht]

/-- C5 witness: with chunk [1] undecodable and chunk [2] well-formed
behind it, the first iteration hits the outer handler and the second
publishes "hello". -/
theorem c5_decode_failure_dropped_witness :
    (speech_recognition_worker_step envBadChunk1 ⟨true, [[1], [2]], idleResult⟩).1 =
      WorkerEvent.outerExceptionLogged ∧
    (speech_recognition_worker_step envBadChunk1
      (speech_recognition_worker_step envBadChunk1
        ⟨true, [[1], [2]], idleResult⟩).2).2.latest_transcription_result =
      ⟨"success", "hello"⟩ := by
  have h := c5_decode_failure_dropped envBadChunk1 ⟨true, [[1], [2]], idleResult⟩
    [1] [[2]] rfl rfl (by decide) rfl
  exact ⟨h.1, (h.2.2.2.2.2 [2] [] [2] "hello" rfl (by decide) (by decide) rfl).2⟩

/-- C6 counterexample: a concrete successful offline transition (code
200, mode stored false, queue cleared) performs no `notify` on the queue
condition, refuting that setOnline(false) signals the condition. -/
theorem c6_offline_transition_no_signal_cex :
    (set_mode ⟨true, [[1]], idleResult⟩
      (some [("online_mode", Json.bool false)])).notified = false ∧
    (set_mode ⟨true, [[1]], idleResult⟩
      (some [("online_mode", Json.bool false)])).code = 200 ∧
    (set_mode ⟨true, [[1]], idleResult⟩
      (some [("online_mode", Json.bool false)])).state.web_online_mode = false := by
  exact ⟨rfl, rfl, rfl⟩

/-- C6 amended: every successful enqueue signals the queue condition
(`notify` at line 112, exactly when the handler returns 200), but the
offline mode transition clears the queue without signaling it, so a
consumer blocked in the wait is not woken by the mode change. -/
theorem c6_notify_on_enqueue_only (env : Env) (s : BackendState)
    (data data2 : Option (List (String × Json))) :
    ((receive_audio env s data).notified = true ↔
      (receive_audio env s data).response.code = 200) ∧
    (set_mode s data2).notified = false := by
  constructor
  · unfold receive_audio
    repeat' split
    all_goals simp
  · cases data2 with
    | none => rfl
    | some d =>
      cases d with
      | nil => rfl
      | cons kv rest =>
        cases hl : lookupField (kv :: rest) "online_mode" with
        | none => simp [set_mode, hl]
        | some v =>
          by_cases hv : pytruthy v = false <;> simp [set_mode, hl, hv]

/-- C6 witness: a concrete successful enqueue notifies, a concrete
offline transition does not. -/
theorem c6_notify_on_enqueue_only_witness :
    (receive_audio envHello ⟨true, [], idleResult⟩
      (some [("audio_chunk", Json.str "eA==")])).notified = true ∧
    (set_mode ⟨true, [], idleResult⟩
      (some [("online_mode", Json.bool false)])).notified = false := by
  have h := c6_notify_on_enqueue_only envHello ⟨true, [], idleResult⟩
    (some [("audio_chunk", Json.str "eA==")])
    (some [("online_mode", Json.bool false)])
  exact ⟨h.1.mpr rfl, h.2⟩

/-- C7 counterexample: in the concrete state offline with empty queue,
the worker iteration takes the fallback sleep branch, not the
condition-wait suspension: the wait guard at line 157 requires
`web_online_mode` to be true. -/
theorem c7_offline_idle_sleeps_cex :
    (speech_recognition_worker_step envFail ⟨false, [], idleResult⟩).1 =
      WorkerEvent.sleptFallback ∧
    (speech_recognition_worker_step envFail ⟨false, [], idleResult⟩).1 ≠
      WorkerEvent.blockedInWait := by
  exact ⟨rfl, by decide⟩

/-- C7 amended: with an empty queue the worker suspends in the
condition wait exactly when the mode is online; when the mode is offline
the iteration takes the bounded fallback sleep branch and leaves the
state unchanged, so offline idle periods are sleep-polled, not blocked. -/
theorem c7_wait_guard_requires_online (env : Env) (s : BackendState)
    (hq : s.audio_chunk_queue = []) :
    ((speech_recognition_worker_step env s).1 = WorkerEvent.blockedInWait ↔
      s.web_online_mode = true) ∧
    (s.web_online_mode = false →
      (speech_recognition_worker_step env s).1 = WorkerEvent.sleptFallback ∧
      (speech_recognition_worker_step env s).2 = s) := by
  cases hb : s.web_online_mode
  · constructor
    · simp [speech_recognition_worker_step, hq, hb]
    · intro _
      simp [speech_recognition_worker_step, hq, hb]
  · constructor
    · simp [speech_recognition_worker_step, hq, hb]
    · intro hfalse
      simp at hfalse

/-- C7 witness: offline idle iteration sleeps; online idle iteration
blocks in the wait. -/
theorem c7_wait_guard_requires_online_witness :
    (speech_recognition_worker_step envFail ⟨false, [], idleResult⟩).1 =
      WorkerEvent.sleptFallback ∧
    (speech_recognition_worker_step envFail ⟨true, [], idleResult⟩).1 =
      WorkerEvent.blockedInWait := by
  have h1 := c7_wait_guard_requires_online envFail ⟨false, [], idleResult⟩ rfl
  have h2 := c7_wait_guard_requires_online envFail ⟨true, [], idleResult⟩ rfl
  exact ⟨(h1.2 rfl).1, h2.1.mpr rfl⟩

/-- C8: a chunk whose recognition attempt ends ambiguous
(`UnknownValueError`) or in a service failure (`RequestError`) publishes
nothing (the slot is unchanged), is not retried (the chunk is already
removed and the queue moves on), and the ambiguous case is silent while
the service-failure case is logged. -/
theorem c8_recognition_failures_no_publish (env : Env) (s : BackendState)
    (c : Chunk) (rest : List Chunk) (w : Wav)
    (hq : s.audio_chunk_queue = c :: rest) (hon : s.web_online_mode = true)
    (hc : c ≠ []) (hw : env.from_raw c = some w) :
    ((env.recognize_google w = RecognizeOutcome.unknownValue →
        (speech_recognition_worker_step env s).1 = WorkerEvent.ambiguousIgnored ∧
        printsFailureLog (speech_recognition_worker_step env s).1 = false) ∧
      (env.recognize_google w = RecognizeOutcome.requestError →
        (speech_recognition_worker_step env s).1 = WorkerEvent.serviceErrorLogged ∧
        printsFailureLog (speech_recognition_worker_step env s).1 = true)) ∧
    ((env.recognize_google w = RecognizeOutcome.unknownValue ∨
        env.recognize_google w = RecognizeOutcome.requestError) →
      (speech_recognition_worker_step env s).2.latest_transcription_result =
        s.latest_transcription_result ∧
      (speech_recognition_worker_step env s).2.audio_chunk_queue = rest) := by
  refine ⟨⟨?_, ?_⟩, ?_⟩
  · intro hr
    constructor
    · simp [speech_recognition_worker_step, processChunk, hq, hon, hc, hw, hr]
    · simp [speech_recognition_worker_step, processChunk, hq, hon, hc, hw, hr,
        printsFailureLog]
  · intro hr
    constructor
    · simp [speech_recognition_worker_step, processChunk, hq, hon, hc, hw, hr]
    · simp [speech_recognition_worker_step, processChunk, hq, hon, hc, hw, hr,
        printsFailureLog]
  · intro hr
    cases hr with
    | inl hr =>
      constructor
      · simp [speech_recognition_worker_step, processChunk, hq, hon, hc, hw, hr]
      · simp [speech_recognition_worker_step, hq, hon, hc]
    | inr hr =>
      constructor
      · simp [speech_recognition_worker_step, processChunk, hq, hon, hc, hw, hr]
      · simp [speech_recognition_worker_step, hq, hon, hc]

/-- C8 witness: an ambiguous chunk is silently ignored and a
service-failure chunk is logged; neither touches the slot. -/
theorem c8_recognition_failures_no_publish_witness :
    (speech_recognition_worker_step envAmbig ⟨true, [[1]], idleResult⟩).1 =
      WorkerEvent.ambiguousIgnored ∧
    (speech_recognition_worker_step envAmbig ⟨true, [[1]], idleResult⟩).2.latest_transcription_result =
      idleResult ∧
    (speech_recognition_worker_step envAmbig ⟨true, [[2]], idleResult⟩).1 =
      WorkerEvent.serviceErrorLogged ∧
    (speech_recognition_worker_step envAmbig ⟨true, [[2]], idleResult⟩).2.latest_transcription_result =
      idleResult := by
  have h1 := c8_recognition_failures_no_publish envAmbig ⟨true, [[1]], idleResult⟩
    [1] [] [1] rfl rfl (by decide) rfl
  have h2 := c8_recognition_failures_no_publish envAmbig ⟨true, [[2]], idleResult⟩
    [2] [] [2] rfl rfl (by decide) rfl
  refine ⟨(h1.1.1 rfl).1, (h1.2 (Or.inl rfl)).1,
    (h2.1.2 (by decide)).1, (h2.2 (Or.inr (by decide))).1⟩

end SpeechBackend

